import Mathlib

/-!
# Verification of the motor-control server core

Shallow embedding of the closed-loop RPM control core of the `server_pi`
repository: the encoder sensor pipeline (`routes/sensor-routes.js`,
interrupt-based variant), the RPM controller (`routes/rpm-control-routes.js`)
and the PWM stop route of the PWM module.

JavaScript numbers are modelled as rationals (all quantities involved are
produced by field operations and floor-based rounding on decimal literals, so
`ℚ` is an exact model of every value reached here).  `Math.round(x)` in
JavaScript returns `⌊x + 1/2⌋`, which is `jsRound` below.
-/

/-- JavaScript `Math.round`: round half toward positive infinity. -/
def jsRound (q : ℚ) : ℤ := ⌊q + 1/2⌋

/-- `Math.round(x * 10) / 10`, the one-decimal rounding used by the controller. -/
def jsRound10 (q : ℚ) : ℚ := (jsRound (q * 10) : ℚ) / 10

/-! ## Encoder sensor pipeline

State of one monitored sensor, per-pin maps of `sensorState` flattened to the
single pin the sensor owns (`lastEdgeTick`, `pulseCounts`, `pulseTimes`,
`rpmFilters`, `pulseRates`).  `rpmFilter` is an `Option` because the code reads
the map with `?? instantRPM`; enabling a sensor stores `0` in the map. -/

structure EncoderState where
  lastEdgeTick : ℕ
  pulseCount : ℕ
  pulseTimes : List ℚ
  rpmFilter : Option ℚ
  rate : ℚ
  deriving Repr, DecidableEq

/-- State installed by the `/enable` route together with `startGPIOMonitoring`:
counters zeroed, empty rolling window, filter map seeded with `0`.
(`lastEdgeTick` is absent from the map and reads as `?? 0`.) -/
def enableSensorState : EncoderState :=
  { lastEdgeTick := 0, pulseCount := 0, pulseTimes := [], rpmFilter := some 0, rate := 0 }

/-- Head-eviction loop of the rolling window: drop entries more than 1 s older
than the current tick time (in seconds). -/
def evictOld (t : ℚ) : List ℚ → List ℚ
  | [] => []
  | x :: xs => if t - x > 1 then evictOld t xs else x :: xs

/-- `detectRealPulseInterrupt(pin, sensor, tick)` restricted to the state it
touches.  The alert callback invokes it only for rising edges of an enabled
sensor, so processing a tick here corresponds to one rising edge arriving.
`tick` is the pigpio microsecond tick.  Debounce: drop the edge when
`tick - lastEdgeTick < 5000` (the map default makes the initial last tick 0).
Accepted edges increment the count, join the 1 s rolling window, and when the
window holds at least two samples spanning strictly more than 25 ms the rate
and the IIR-filtered RPM are recomputed; otherwise `rate` is republished as 0
and the filter is left untouched. -/
def detectRealPulseInterrupt (s : EncoderState) (tick : ℕ) : EncoderState :=
  if (tick : ℤ) - (s.lastEdgeTick : ℤ) < 5000 then s
  else
    let tickTime : ℚ := (tick : ℚ) / 1000000
    let w := evictOld tickTime (s.pulseTimes ++ [tickTime])
    let rateFilter : ℚ × Option ℚ :=
      if 2 ≤ w.length then
        let windowTime := w.getLastD 0 - w.headD 0
        let windowPulses : ℕ := w.length - 1
        if windowTime > 1/40 then
          let pulsesPerSecond := (windowPulses : ℚ) / windowTime
          let instantRPM := pulsesPerSecond * 60 / 45
          let currentFilter := s.rpmFilter.getD instantRPM
          ((jsRound pulsesPerSecond : ℚ), some (currentFilter * (3/5) + instantRPM * (2/5)))
        else (0, s.rpmFilter)
      else (0, s.rpmFilter)
    { lastEdgeTick := tick, pulseCount := s.pulseCount + 1, pulseTimes := w,
      rate := rateFilter.1, rpmFilter := rateFilter.2 }

/-- Process a finite sequence of rising edges. -/
def processEdges (s : EncoderState) (ticks : List ℕ) : EncoderState :=
  ticks.foldl detectRealPulseInterrupt s

/-- The `/reset` route for a known sensor: zeros `pulses`, `rate`, `lastPulse`
and the per-pin counters.  It does not touch `pulseTimes` or `rpmFilters`. -/
def resetSensor (s : EncoderState) : EncoderState :=
  { s with pulseCount := 0, rate := 0 }

/-- Acceptance count read literally from claim C4: an edge is accepted iff its
tick is at least 5000 µs after the tick of the previously accepted edge; with
no previously accepted edge the condition is vacuous and the edge is accepted. -/
def countAcceptedNoInit : Option ℕ → List ℕ → ℕ
  | _, [] => 0
  | none, t :: ts => countAcceptedNoInit (some t) ts + 1
  | some l, t :: ts =>
      if (l : ℤ) + 5000 ≤ (t : ℤ) then countAcceptedNoInit (some t) ts + 1
      else countAcceptedNoInit (some l) ts

/-- Acceptance count with the handler's initial last-edge tick 0: an edge is
accepted iff its tick is at least 5000 µs after the previously accepted edge,
where a virtual accepted edge at tick 0 precedes the sequence. -/
def countAccepted (last : ℕ) : List ℕ → ℕ
  | [] => 0
  | t :: ts =>
      if (t : ℤ) - (last : ℤ) < 5000 then countAccepted last ts
      else countAccepted t ts + 1

/-! ## RPM controller (`routes/rpm-control-routes.js`)

The mutable fields of `rpmControlState`; the per-module constants
(`PULSES_PER_ROTATION = 45`, `UPDATE_RATE = 100` ms, `maxPWM = 255`,
`minPWM = 0`, `baseKick = 4`, `errorDeadband = 1.0`) are never reassigned and
appear as literals below.  `currentPWM` is kept as a rational because the
`/start` route stores the unrounded value `baseKick + 0.15 · targetRPM`. -/

structure RpmControlState where
  active : Bool
  targetRPM : ℚ
  currentRPM : ℚ
  currentPWM : ℚ
  error : ℚ
  controlPin : ℚ
  sensorNumber : ℚ
  lastPulseCount : ℚ
  lastUpdateTime : ℚ
  integralTerm : ℚ
  lastError : ℚ
  satTimer : ℚ
  deriving Repr, DecidableEq

/-- The module-level initial `rpmControlState` literal. -/
def initialRpmState : RpmControlState :=
  { active := false, targetRPM := 0, currentRPM := 0, currentPWM := 0, error := 0,
    controlPin := 18, sensorNumber := 1, lastPulseCount := 0, lastUpdateTime := 0,
    integralTerm := 0, lastError := 0, satTimer := 0 }

/-- The controller's view of the bound sensor entry
(`sensorRoutes.sensorState.activeSensors.get(sensorNumber)`):
`filteredRPM` is `Option` because the polled-mode entry starts without the
field (`undefined`). -/
structure SensorData where
  enabled : Bool
  filteredRPM : Option ℚ
  pulses : ℚ
  deriving Repr, DecidableEq

/-- `calculateCurrentRPM()`.  `sensor` is the map lookup result (`none` when
the sensor id is unknown) and `now` is `Date.now()` in ms.  Returns the value
the caller receives together with the mutated state.  A missing or disabled
sensor returns 0 without touching the state; a positive `filteredRPM` is
rounded to one decimal and stored; otherwise a positive previous `currentRPM`
is kept, and failing that the legacy pulse-delta estimate runs. -/
def calculateCurrentRPM (sensor : Option SensorData) (now : ℚ)
    (s : RpmControlState) : ℚ × RpmControlState :=
  match sensor with
  | none => (0, s)
  | some sd =>
    if sd.enabled = false then (0, s)
    else if sd.filteredRPM.isSome ∧ 0 < sd.filteredRPM.getD 0 then
      let s1 := { s with currentRPM := jsRound10 (sd.filteredRPM.getD 0) }
      (s1.currentRPM, s1)
    else if 0 < s.currentRPM then (s.currentRPM, s)
    else
      let currentPulses := sd.pulses
      let s1 :=
        if 0 < s.lastUpdateTime then
          let timeDelta := (now - s.lastUpdateTime) / 1000
          let pulseDelta := currentPulses - s.lastPulseCount
          if 0 < timeDelta ∧ 0 ≤ pulseDelta then
            { s with currentRPM := jsRound10 (pulseDelta / timeDelta / 45 * 60) }
          else s
        else s
      let s2 := { s1 with lastPulseCount := currentPulses, lastUpdateTime := now }
      (s2.currentRPM, s2)

/-- Low-speed PID gains (`target_rpm < 20`). -/
def gainsLow : ℚ × ℚ × ℚ := (35/100, 5/100, 0)

/-- High-speed PID gains. -/
def gainsHigh : ℚ × ℚ × ℚ := (25/10, 35/100, 4/100)

/-- `updateRPMController()`: one controller tick.  Returns the new state and
the duty written by `sendPWMCommand` on this tick (`none` when the tick writes
nothing: inactive controller or deadband short-circuit). -/
def updateRPMController (sensor : Option SensorData) (now : ℚ)
    (s : RpmControlState) : RpmControlState × Option ℚ :=
  if s.active = false then (s, none)
  else
    let c := calculateCurrentRPM sensor now s
    let currentRPM := c.1
    let s0 := c.2
    let error := s0.targetRPM - currentRPM
    if |error| < 1 then ({ s0 with error := jsRound10 error }, none)
    else
      let g := if s0.targetRPM < 20 then gainsLow else gainsHigh
      let dt : ℚ := 100 / 1000
      let proportional := g.1 * error
      let integral1 := s0.integralTerm + g.2.1 * error * dt
      let integral2 := max (-100) (min 100 integral1)
      let derivative :=
        if s0.lastError ≠ s0.targetRPM then g.2.2 * (error - s0.lastError) / dt else 0
      let u0 := proportional + integral2 + derivative
      let kick := 4 + (15/100) * s0.targetRPM
      let u1 := if 0 < error ∧ u0 < kick then kick else u0
      let minAllowed := if 0 < error then kick else 0
      let u2 := max minAllowed (min 255 u1)
      let pwm : ℤ := jsRound u2
      let saturated := pwm = 255 ∨ pwm = 0
      let satTimer1 := if saturated then s0.satTimer + dt else 0
      let integral3 := if 1/4 < satTimer1 then integral2 * (7/10) else integral2
      ({ s0 with currentPWM := (pwm : ℚ), integralTerm := integral3,
                 satTimer := satTimer1, error := jsRound10 error, lastError := error },
       some (pwm : ℚ))

/-- Outcome of the `/start`, `/stop` and `/set-rpm` routes. -/
inductive RouteResult where
  | invalidTarget
  | sensorNotEnabled
  | success
  deriving Repr, DecidableEq

/-- JavaScript `x || d` for an optional numeric request field: `undefined` and
the falsy value 0 both yield the default. -/
def jsOrDefault (o : Option ℚ) (d : ℚ) : ℚ :=
  match o with
  | none => d
  | some v => if v = 0 then d else v

/-- The `/start` route (`router.post('/start')`).  Rejects `targetRPM ≤ 0`
(the guard `!targetRPM || targetRPM <= 0`); rejects a missing or disabled
sensor; otherwise installs the new control parameters, initializes
`currentPWM = baseKick + 0.15 · targetRPM` unrounded and unclamped, seeds
`lastError` with the target, and schedules the periodic tick.  (It also resets
the sensor pipeline's stored filter for the bound pin to 0; that effect lives
in the sensor module's state and is not needed by the claims below.) -/
def startRPMControl (targetRPM : ℚ) (controlPin sensorNumber : Option ℚ)
    (sensor : Option SensorData) (now : ℚ) (s : RpmControlState) :
    RouteResult × RpmControlState :=
  if targetRPM ≤ 0 then (.invalidTarget, s)
  else
    match sensor with
    | none => (.sensorNotEnabled, s)
    | some sd =>
      if sd.enabled = false then (.sensorNotEnabled, s)
      else
        (.success,
          { s with targetRPM := targetRPM,
                   controlPin := jsOrDefault controlPin 18,
                   sensorNumber := jsOrDefault sensorNumber 1,
                   active := true,
                   currentPWM := 4 + (15/100) * targetRPM,
                   lastPulseCount := sd.pulses,
                   lastUpdateTime := now,
                   integralTerm := 0,
                   lastError := targetRPM,
                   satTimer := 0 })

/-- The `/stop` route: deactivates the loop, cancels the interval, writes duty
0 to the control pin and clears the PID accumulators.  The second component is
the duty written. -/
def stopRPMControl (s : RpmControlState) : RpmControlState × Option ℚ :=
  ({ s with active := false, currentPWM := 0, integralTerm := 0,
            lastError := 0, satTimer := 0 },
   some 0)

/-- The `/set-rpm` route.  The guard `!targetRPM || targetRPM < 0` rejects 0
(falsy) and negative values before the `targetRPM === 0` stop branch can run;
that branch is kept verbatim below but is unreachable for numeric input. -/
def setTargetRPM (targetRPM : ℚ) (s : RpmControlState) :
    RouteResult × RpmControlState × Option ℚ :=
  if targetRPM = 0 ∨ targetRPM < 0 then (.invalidTarget, s, none)
  else
    let s1 := { s with targetRPM := targetRPM }
    if targetRPM = 0 ∧ s1.active = true then
      (.success, { s1 with active := false, currentPWM := 0 }, some 0)
    else (.success, s1, none)

/-- Run a sequence of controller ticks, collecting every duty written. -/
def runTicks (s : RpmControlState) : List (Option SensorData × ℚ) → RpmControlState × List ℚ
  | [] => (s, [])
  | (sensor, now) :: rest =>
    let step := updateRPMController sensor now s
    let tail := runTicks step.1 rest
    (tail.1, step.2.toList ++ tail.2)

/-! ## PWM module (`pwm-routes`, unnamed source part)

Only the `/stop` route matters for the claims: the entry data stored per pin
in `activePins`. -/

/-- One `activePins` entry (the GPIO handle is `null` in simulation mode and
irrelevant to the registry contents). -/
structure PwmEntry where
  dutyCycle : ℚ
  frequency : ℚ
  enabled : Bool
  deriving Repr, DecidableEq

/-- The `activePins` map as an association list keyed by pin number. -/
abbrev PwmRegistry := List (ℤ × PwmEntry)

/-- `activePins.has(pin)`. -/
def regHas (pin : ℤ) (reg : PwmRegistry) : Bool :=
  reg.any (fun e => e.1 == pin)

/-- Outcome of the PWM `/stop` route. -/
inductive PwmStopResult where
  | invalidPin
  | success
  deriving Repr, DecidableEq

/-- The PWM `/stop` route: rejects pins outside 0–27; when the pin has an
entry, writes duty 0 and deletes the entry; in every non-rejected case the
route responds with success, whether or not an entry existed. -/
def pwmStopRoute (pin : ℤ) (reg : PwmRegistry) : PwmStopResult × PwmRegistry :=
  if pin < 0 ∨ 27 < pin then (.invalidPin, reg)
  else if regHas pin reg then (.success, reg.filter (fun e => e.1 != pin))
  else (.success, reg)

/-! ## Shared concrete scenario states -/

/-- An enabled sensor entry as seen right after enable (filter published 0). -/
def sdEnabled : SensorData := { enabled := true, filteredRPM := some 0, pulses := 0 }

/-- Enabled sensor publishing a filtered RPM of 29.5. -/
def sdAt295 : SensorData := { enabled := true, filteredRPM := some (59/2), pulses := 5 }

/-- Enabled sensor publishing a filtered RPM of 26. -/
def sdAt26 : SensorData := { enabled := true, filteredRPM := some 26, pulses := 10 }

/-- The bound sensor after the operator disables it mid-loop. -/
def sdDisabled : SensorData := { enabled := false, filteredRPM := some (59/2), pulses := 5 }

/-- Controller state after a successful `/start` at 30 RPM from the module
initial state. -/
def rpmStateAfterStart30 : RpmControlState :=
  (startRPMControl 30 none none (some sdEnabled) 1000 initialRpmState).2

/-- Controller state after a successful `/start` at 28 RPM. -/
def rpmStateAfterStart28 : RpmControlState :=
  (startRPMControl 28 none none (some sdEnabled) 1000 initialRpmState).2

/-- Controller state after a successful `/start` at 1680 RPM. -/
def rpmStateAfterStart1680 : RpmControlState :=
  (startRPMControl 1680 none none (some sdEnabled) 1000 initialRpmState).2

/-! ## Helper lemmas -/

theorem calculateCurrentRPM_preserves (sensor : Option SensorData) (now : ℚ)
    (s : RpmControlState) :
    (calculateCurrentRPM sensor now s).2.active = s.active ∧
    (calculateCurrentRPM sensor now s).2.targetRPM = s.targetRPM ∧
    (calculateCurrentRPM sensor now s).2.currentPWM = s.currentPWM ∧
    (calculateCurrentRPM sensor now s).2.integralTerm = s.integralTerm ∧
    (calculateCurrentRPM sensor now s).2.lastError = s.lastError ∧
    (calculateCurrentRPM sensor now s).2.satTimer = s.satTimer := by
  cases sensor with
  | none => simp [calculateCurrentRPM]
  | some sd =>
    by_cases h1 : sd.enabled = false <;>
      by_cases h2 : sd.filteredRPM.isSome ∧ 0 < sd.filteredRPM.getD 0 <;>
        by_cases h3 : 0 < s.currentRPM <;>
          by_cases h4 : 0 < s.lastUpdateTime <;>
            simp [calculateCurrentRPM, h1, h2, h3, h4] <;> split_ifs <;> simp

theorem calculateCurrentRPM_disabled (sensor : Option SensorData) (now : ℚ)
    (s : RpmControlState) (h : ∀ sd ∈ sensor, sd.enabled = false) :
    calculateCurrentRPM sensor now s = (0, s) := by
  cases sensor with
  | none => rfl
  | some sd =>
    have hsd := h sd rfl
    simp [calculateCurrentRPM, hsd]

theorem updateRPMController_inactive (sensor : Option SensorData) (now : ℚ)
    (s : RpmControlState) (h : s.active = false) :
    updateRPMController sensor now s = (s, none) := by
  simp [updateRPMController, h]

theorem runTicks_inactive (inputs : List (Option SensorData × ℚ)) :
    ∀ s : RpmControlState, s.active = false → runTicks s inputs = (s, []) := by
  induction inputs with
  | nil => intro s _; rfl
  | cons p rest ih =>
    intro s h
    obtain ⟨sensor, now⟩ := p
    simp only [runTicks, updateRPMController_inactive sensor now s h, ih s h,
      Option.toList_none, List.nil_append]

theorem jsRound_nonneg (x : ℚ) (h : 0 ≤ x) : 0 ≤ jsRound x := by
  unfold jsRound
  have : (0 : ℚ) ≤ x + 1/2 := by linarith
  exact Int.le_floor.mpr (by exact_mod_cast this)

theorem jsRound_le_255 (x : ℚ) (h : x ≤ 255) : jsRound x ≤ 255 := by
  unfold jsRound
  have h1 : x + 1/2 < 256 := by linarith
  have h2 : ⌊x + 1/2⌋ < (256 : ℤ) := by
    exact_mod_cast Int.floor_lt.mpr (by exact_mod_cast h1)
  omega

theorem jsRound_gt (x : ℚ) : x - 1/2 < (jsRound x : ℚ) := by
  unfold jsRound
  have := Int.sub_one_lt_floor (x + 1/2)
  linarith

theorem clamp_bounds (a u : ℚ) (h0 : 0 ≤ a) (h255 : a ≤ 255) :
    0 ≤ max a (min 255 u) ∧ max a (min 255 u) ≤ 255 := by
  constructor
  · exact le_trans h0 (le_max_left _ _)
  · exact max_le h255 (min_le_left _ _)

theorem detect_drop (s : EncoderState) (tick : ℕ)
    (h : (tick : ℤ) - (s.lastEdgeTick : ℤ) < 5000) :
    detectRealPulseInterrupt s tick = s := by
  simp [detectRealPulseInterrupt, h]

theorem detect_accept_count (s : EncoderState) (tick : ℕ)
    (h : ¬ (tick : ℤ) - (s.lastEdgeTick : ℤ) < 5000) :
    (detectRealPulseInterrupt s tick).pulseCount = s.pulseCount + 1 ∧
    (detectRealPulseInterrupt s tick).lastEdgeTick = tick := by
  simp [detectRealPulseInterrupt, h]

theorem processEdges_count (ticks : List ℕ) : ∀ s : EncoderState,
    (processEdges s ticks).pulseCount = s.pulseCount + countAccepted s.lastEdgeTick ticks := by
  induction ticks with
  | nil => intro s; simp [processEdges, countAccepted]
  | cons t ts ih =>
    intro s
    by_cases h : (t : ℤ) - (s.lastEdgeTick : ℤ) < 5000
    · have hd := detect_drop s t h
      simp only [processEdges, List.foldl_cons, hd, countAccepted, if_pos h]
      exact ih s
    · have ha := detect_accept_count s t h
      simp only [processEdges, List.foldl_cons, countAccepted, if_neg h]
      have := ih (detectRealPulseInterrupt s t)
      simp only [processEdges] at this
      rw [this, ha.1, ha.2]
      omega

/-- C4: the claim as frozen reads acceptance relative to "the previously
accepted edge"; with no previous accepted edge that condition is vacuous, so a
lone first edge should count.  The handler instead debounces against an
initial last-edge tick of 0, so a single rising edge at tick 1000 µs (within
5000 µs of boot) is dropped: `pulse_count` stays 0 while the claim predicts 1. -/
theorem C4_counterexample :
    (processEdges enableSensorState [1000]).pulseCount = 0 ∧
    countAcceptedNoInit none [1000] = 1 ∧ (0 : ℕ) ≠ 1 := by
  refine ⟨?_, by simp [countAcceptedNoInit], by simp⟩
  norm_num [processEdges, detectRealPulseInterrupt, enableSensorState]

/-- C4 (amended): for every enabled sensor and every finite sequence of rising
edges, `pulse_count` equals the number of accepted edges, where an edge is
accepted iff its tick is at least 5000 µs after the tick of the previously
accepted edge, with a virtual accepted edge at tick 0 (the map default)
preceding the sequence. -/
theorem C4_pulse_count_debounce (ticks : List ℕ) :
    (processEdges enableSensorState ticks).pulseCount = countAccepted 0 ticks := by
  simpa [enableSensorState] using processEdges_count ticks enableSensorState

/-- C5: the claim asserts that the first qualifying edge after enable sets
`filtered_rpm` to `instant_rpm`, and that a window spanning exactly
`MIN_WINDOW_SECS` already qualifies.  Both fail.  Edges at ticks 10000 and
40000 µs form a 0.03 s window with `instant_rpm = (1/0.03)·60/45 = 400/9`, but
the filter (seeded with 0 by enable, not absent) becomes `0·0.6 + 0.4·400/9 =
160/9 ≠ 400/9`.  Edges at ticks 10000 and 35000 µs span exactly 0.025 s and
leave the filter at 0, while the claim predicts an update to a positive value. -/
theorem C5_counterexample :
    ((processEdges enableSensorState [10000, 40000]).rpmFilter = some (160/9) ∧
      (160/9 : ℚ) ≠ ((2:ℚ) - 1) / (40000/1000000 - 10000/1000000) * 60 / 45) ∧
    ((processEdges enableSensorState [10000, 35000]).rpmFilter = some 0 ∧
      (0 : ℚ) ≠ (2/5) * (((2:ℚ) - 1) / (35000/1000000 - 10000/1000000) * 60 / 45)) := by
  constructor
  · constructor
    · norm_num [processEdges, detectRealPulseInterrupt, evictOld, enableSensorState, jsRound]
    · norm_num
  · constructor
    · norm_num [processEdges, detectRealPulseInterrupt, evictOld, enableSensorState, jsRound]
    · norm_num

/-- C5 (amended): for every accepted edge whose post-insertion rolling window
holds at least 2 samples and spans strictly more than `MIN_WINDOW_SECS = 1/40`
s, the handler computes `pps = (len(window) − 1) / (window.last − window.first)`
and `instant_rpm = pps·60/45`, publishes `rate = round(pps)`, and updates the
filter to `prev · 0.6 + instant_rpm · 0.4`, where `prev` is the stored filter
value (0 immediately after enable, hence the first qualifying edge yields
`0.4 · instant_rpm`, not `instant_rpm`). -/
theorem C5_window_filter_update (s : EncoderState) (t : ℕ) (w : List ℚ) (pps inst : ℚ)
    (hacc : ¬ (t : ℤ) - (s.lastEdgeTick : ℤ) < 5000)
    (hw : w = evictOld ((t : ℚ) / 1000000) (s.pulseTimes ++ [(t : ℚ) / 1000000]))
    (hlen : 2 ≤ w.length)
    (hspan : 1/40 < w.getLastD 0 - w.headD 0)
    (hpps : pps = ((w.length : ℚ) - 1) / (w.getLastD 0 - w.headD 0))
    (hinst : inst = pps * 60 / 45) :
    (detectRealPulseInterrupt s t).rpmFilter
        = some ((s.rpmFilter.getD inst) * (3/5) + inst * (2/5)) ∧
    (detectRealPulseInterrupt s t).rate = (jsRound pps : ℚ) ∧
    (detectRealPulseInterrupt s t).pulseTimes = w := by
  have hcast : ((w.length - 1 : ℕ) : ℚ) = (w.length : ℚ) - 1 := by
    have h1 : 1 ≤ w.length := le_trans (by norm_num) hlen
    push_cast [h1]
    ring
  subst hw hpps hinst
  simp only [detectRealPulseInterrupt, if_neg hacc]
  rw [if_pos hlen, if_pos hspan, hcast]
  simp

/-- C5 witness: edges at 10000 and 40000 µs; the second edge qualifies and the
filter update formula evaluates as stated. -/
theorem C5_window_filter_update_witness :
    (¬ ((40000 : ℤ) - ((detectRealPulseInterrupt enableSensorState 10000).lastEdgeTick : ℤ)
        < 5000)) ∧
    (detectRealPulseInterrupt (detectRealPulseInterrupt enableSensorState 10000) 40000).rpmFilter
        = some (((detectRealPulseInterrupt enableSensorState 10000).rpmFilter.getD
            (((([1/100, 1/25] : List ℚ).length : ℚ) - 1)
                / (([1/100, 1/25] : List ℚ).getLastD 0 - ([1/100, 1/25] : List ℚ).headD 0)
              * 60 / 45)) * (3/5)
          + ((([1/100, 1/25] : List ℚ).length : ℚ) - 1)
                / (([1/100, 1/25] : List ℚ).getLastD 0 - ([1/100, 1/25] : List ℚ).headD 0)
              * 60 / 45 * (2/5)) := by
  have h1 : ¬ ((40000 : ℤ)
      - ((detectRealPulseInterrupt enableSensorState 10000).lastEdgeTick : ℤ) < 5000) := by
    norm_num [detectRealPulseInterrupt, enableSensorState]
  refine ⟨h1, ?_⟩
  exact (C5_window_filter_update (detectRealPulseInterrupt enableSensorState 10000) 40000
    [1/100, 1/25] _ _ h1
    (by norm_num [detectRealPulseInterrupt, enableSensorState, evictOld])
    (by norm_num) (by norm_num) rfl rfl).1

/-- C6: the claim asserts that `reset` also empties the rolling window and
zeros `filtered_rpm`.  After edges at 10000 and 40000 µs the reset route zeros
`pulse_count` but leaves the two-entry window and the filter value `160/9`
untouched. -/
theorem C6_counterexample :
    (resetSensor (processEdges enableSensorState [10000, 40000])).pulseCount = 0 ∧
    (resetSensor (processEdges enableSensorState [10000, 40000])).pulseTimes
        = [1/100, 1/25] ∧ ([1/100, 1/25] : List ℚ) ≠ [] ∧
    (resetSensor (processEdges enableSensorState [10000, 40000])).rpmFilter
        = some (160/9) ∧ (160/9 : ℚ) ≠ 0 := by
  refine ⟨rfl, ?_, by simp, ?_, by norm_num⟩ <;>
    norm_num [resetSensor, processEdges, detectRealPulseInterrupt, evictOld,
      enableSensorState, jsRound]

/-- C6 (amended): `reset` on a known sensor zeros `pulse_count` and the
published rate only; the rolling window of edge timestamps, the filtered RPM
and the debounce tick are left unchanged. -/
theorem C6_reset_effect (s : EncoderState) :
    (resetSensor s).pulseCount = 0 ∧ (resetSensor s).rate = 0 ∧
    (resetSensor s).pulseTimes = s.pulseTimes ∧
    (resetSensor s).rpmFilter = s.rpmFilter ∧
    (resetSensor s).lastEdgeTick = s.lastEdgeTick := by
  simp [resetSensor]

theorem kick_round_lower (k b : ℚ) : k - 1/2 < (jsRound (max k (min 255 b)) : ℚ) := by
  have h1 : k ≤ max k (min 255 b) := le_max_left _ _
  have h2 := jsRound_gt (max k (min 255 b))
  linarith

/-- C1: the claim asserts an integer `current_pwm` in `[0, 255]` after every
tick of an active controller, explicitly including deadband ticks that retain
the previous value.  A deadband tick taken right after `/start` retains the
start value `base_kick + 0.15 · target_rpm`, which is not an integer: starting
at 30 RPM stores `current_pwm = 8.5`, and a tick whose sensor reads 29.5 RPM
(error 0.5, inside the deadband) keeps it, so the stored `current_pwm` is no
integer of `[0, 255]`. -/
theorem C1_counterexample :
    rpmStateAfterStart30.active = true ∧
    (updateRPMController (some sdAt295) 1100 rpmStateAfterStart30).1.currentPWM = 17/2 ∧
    ¬ ∃ n : ℤ, (updateRPMController (some sdAt295) 1100 rpmStateAfterStart30).1.currentPWM
        = (n : ℚ) ∧ 0 ≤ n ∧ n ≤ 255 := by
  have hpwm : (updateRPMController (some sdAt295) 1100 rpmStateAfterStart30).1.currentPWM
      = 17/2 := by
    norm_num [abs_lt, updateRPMController, calculateCurrentRPM, rpmStateAfterStart30,
      startRPMControl, initialRpmState, sdEnabled, sdAt295, jsRound10, jsRound, jsOrDefault]
  refine ⟨by norm_num [rpmStateAfterStart30, startRPMControl, initialRpmState, sdEnabled],
    hpwm, ?_⟩
  rintro ⟨n, hn, -, -⟩
  rw [hpwm] at hn
  have h2 : (17 : ℚ) = 2 * (n : ℚ) := by linarith
  have h3 : (17 : ℤ) = 2 * n := by exact_mod_cast h2
  omega

/-- C1 (amended): after every tick of an active controller that passes the
deadband (`|target_rpm − current_rpm| ≥ 1`), the stored `current_pwm` (and the
duty written on that tick) is an integer in `[0, 255]`, provided
`target_rpm ≥ 0` and `kick = base_kick + 0.15 · target_rpm ≤ 255`
(i.e. `target_rpm ≤ 5020/3 ≈ 1673.33`); deadband ticks retain the previous
`current_pwm`, which immediately after `/start` may be non-integer or exceed
255. -/
theorem C1_pwm_integer_bounds (sensor : Option SensorData) (now : ℚ) (s : RpmControlState)
    (hact : s.active = true) (ht0 : 0 ≤ s.targetRPM)
    (hkick : 4 + (15/100) * s.targetRPM ≤ 255)
    (hdb : 1 ≤ |s.targetRPM - (calculateCurrentRPM sensor now s).1|) :
    ∃ n : ℤ, (updateRPMController sensor now s).1.currentPWM = (n : ℚ) ∧
      (updateRPMController sensor now s).2 = some ((n : ℚ)) ∧ 0 ≤ n ∧ n ≤ 255 := by
  have htgt := (calculateCurrentRPM_preserves sensor now s).2.1
  have hact' : ¬ (s.active = false) := by simp [hact]
  have hdb' : ¬ (|(calculateCurrentRPM sensor now s).2.targetRPM
      - (calculateCurrentRPM sensor now s).1| < 1) := by
    rw [htgt]; exact not_lt.mpr hdb
  simp only [updateRPMController, if_neg hact', if_neg hdb']
  rw [htgt]
  refine ⟨_, rfl, rfl, jsRound_nonneg _ ?_, jsRound_le_255 _ ?_⟩
  · refine (clamp_bounds _ _ ?_ ?_).1
    · split_ifs <;> [linarith; norm_num]
    · split_ifs <;> [exact hkick; norm_num]
  · refine (clamp_bounds _ _ ?_ ?_).2
    · split_ifs <;> [linarith; norm_num]
    · split_ifs <;> [exact hkick; norm_num]

/-- C1 witness: active controller at target 28 RPM, sensor reading 26 RPM. -/
theorem C1_pwm_integer_bounds_witness :
    (1 : ℚ) ≤ |rpmStateAfterStart28.targetRPM
        - (calculateCurrentRPM (some sdAt26) 1100 rpmStateAfterStart28).1| ∧
    ∃ n : ℤ, (updateRPMController (some sdAt26) 1100 rpmStateAfterStart28).1.currentPWM
        = (n : ℚ) ∧
      (updateRPMController (some sdAt26) 1100 rpmStateAfterStart28).2 = some ((n : ℚ)) ∧
      0 ≤ n ∧ n ≤ 255 := by
  have hdb : (1 : ℚ) ≤ |rpmStateAfterStart28.targetRPM
      - (calculateCurrentRPM (some sdAt26) 1100 rpmStateAfterStart28).1| := by
    norm_num [calculateCurrentRPM, rpmStateAfterStart28, startRPMControl, initialRpmState,
      sdEnabled, sdAt26, jsRound10, jsRound, jsOrDefault]
  exact ⟨hdb, C1_pwm_integer_bounds (some sdAt26) 1100 rpmStateAfterStart28
    (by norm_num [rpmStateAfterStart28, startRPMControl, initialRpmState, sdEnabled])
    (by norm_num [rpmStateAfterStart28, startRPMControl, initialRpmState, sdEnabled])
    (by norm_num [rpmStateAfterStart28, startRPMControl, initialRpmState, sdEnabled]) hdb⟩

/-- C2: the claim asserts `current_pwm ≥ kick` on every active tick with
positive error.  Rounding breaks it: at target 28 RPM, `kick = 8.2`; with the
sensor at 26 RPM (error 2 > 0, outside the deadband) the PID output is bumped
to `kick = 8.2` and then rounded to `current_pwm = 8 < 8.2`. -/
theorem C2_counterexample :
    rpmStateAfterStart28.active = true ∧
    (calculateCurrentRPM (some sdAt26) 1100 rpmStateAfterStart28).1 = 26 ∧
    (0 : ℚ) < rpmStateAfterStart28.targetRPM
        - (calculateCurrentRPM (some sdAt26) 1100 rpmStateAfterStart28).1 ∧
    (updateRPMController (some sdAt26) 1100 rpmStateAfterStart28).1.currentPWM = 8 ∧
    (updateRPMController (some sdAt26) 1100 rpmStateAfterStart28).2 = some 8 ∧
    (8 : ℚ) < 4 + (15/100) * rpmStateAfterStart28.targetRPM := by
  refine ⟨?_, ?_, ?_, ?_, ?_, ?_⟩ <;>
    norm_num [abs_lt, updateRPMController, calculateCurrentRPM, rpmStateAfterStart28,
      startRPMControl, initialRpmState, sdEnabled, sdAt26, jsRound10, jsRound, jsOrDefault,
      gainsLow, gainsHigh]

/-- C2 (amended): on every tick of an active controller that passes the
deadband with `error > 0`, the pre-rounding control value is at least
`kick = base_kick + 0.15 · target_rpm`, so the `current_pwm` produced and
written by that tick exceeds `kick − 1/2`; deadband ticks (`0 < error < 1`)
retain the previous `current_pwm`, which may lie below `kick`. -/
theorem C2_pwm_at_least_kick (sensor : Option SensorData) (now : ℚ) (s : RpmControlState)
    (hact : s.active = true)
    (hdb : 1 ≤ |s.targetRPM - (calculateCurrentRPM sensor now s).1|)
    (herr : 0 < s.targetRPM - (calculateCurrentRPM sensor now s).1) :
    (updateRPMController sensor now s).2
        = some ((updateRPMController sensor now s).1.currentPWM) ∧
    4 + (15/100) * s.targetRPM - 1/2
        < (updateRPMController sensor now s).1.currentPWM := by
  have htgt := (calculateCurrentRPM_preserves sensor now s).2.1
  have hact' : ¬ (s.active = false) := by simp [hact]
  have hdb' : ¬ (|(calculateCurrentRPM sensor now s).2.targetRPM
      - (calculateCurrentRPM sensor now s).1| < 1) := by
    rw [htgt]; exact not_lt.mpr hdb
  simp only [updateRPMController, if_neg hact', if_neg hdb']
  rw [htgt]
  rw [if_pos herr]
  exact ⟨by trivial, kick_round_lower _ _⟩

/-- C2 witness: active controller at target 28 RPM, sensor reading 26 RPM. -/
theorem C2_pwm_at_least_kick_witness :
    (0 : ℚ) < rpmStateAfterStart28.targetRPM
        - (calculateCurrentRPM (some sdAt26) 1100 rpmStateAfterStart28).1 ∧
    ((updateRPMController (some sdAt26) 1100 rpmStateAfterStart28).2
        = some ((updateRPMController (some sdAt26) 1100 rpmStateAfterStart28).1.currentPWM) ∧
      4 + (15/100) * rpmStateAfterStart28.targetRPM - 1/2
        < (updateRPMController (some sdAt26) 1100 rpmStateAfterStart28).1.currentPWM) := by
  have herr : (0 : ℚ) < rpmStateAfterStart28.targetRPM
      - (calculateCurrentRPM (some sdAt26) 1100 rpmStateAfterStart28).1 := by
    norm_num [calculateCurrentRPM, rpmStateAfterStart28, startRPMControl, initialRpmState,
      sdEnabled, sdAt26, jsRound10, jsRound, jsOrDefault]
  exact ⟨herr, C2_pwm_at_least_kick (some sdAt26) 1100 rpmStateAfterStart28
    (by norm_num [rpmStateAfterStart28, startRPMControl, initialRpmState, sdEnabled])
    (by norm_num [calculateCurrentRPM, rpmStateAfterStart28, startRPMControl, initialRpmState,
      sdEnabled, sdAt26, jsRound10, jsRound, jsOrDefault]) herr⟩

/-- C3: calling `/set-rpm` with `targetRPM = 0` while the controller is
active is rejected by the falsy guard `!targetRPM || targetRPM < 0` with
"Invalid target RPM"; the state is untouched, the controller stays active and
no duty is written.  The explicit `targetRPM === 0 && active` stop branch is
dead code, so the claim (and the spec) describe the evident intent while the
code rejects the request: a code bug. -/
theorem C3_set_target_zero_rejected (s : RpmControlState) (hact : s.active = true) :
    (setTargetRPM 0 s).1 = RouteResult.invalidTarget ∧
    (setTargetRPM 0 s).2.1 = s ∧
    (setTargetRPM 0 s).2.1.active = true ∧
    (setTargetRPM 0 s).2.2 = none := by
  refine ⟨?_, ?_, ?_, ?_⟩ <;> simp [setTargetRPM, hact]

/-- C3 witness: the controller started at 30 RPM is active, and `set-rpm 0`
leaves it active with an error response. -/
theorem C3_set_target_zero_rejected_witness :
    rpmStateAfterStart30.active = true ∧
    ((setTargetRPM 0 rpmStateAfterStart30).1 = RouteResult.invalidTarget ∧
      (setTargetRPM 0 rpmStateAfterStart30).2.1 = rpmStateAfterStart30 ∧
      (setTargetRPM 0 rpmStateAfterStart30).2.1.active = true ∧
      (setTargetRPM 0 rpmStateAfterStart30).2.2 = none) := by
  have hact : rpmStateAfterStart30.active = true := by
    norm_num [rpmStateAfterStart30, startRPMControl, initialRpmState, sdEnabled]
  exact ⟨hact, C3_set_target_zero_rejected rpmStateAfterStart30 hact⟩

/-- C7: after `/stop` returns, the controller is inactive, every subsequent
tick returns on its first line without touching the state, and no duty
whatsoever (in particular no non-zero duty) is written by any number of
subsequent ticks, whatever the sensor reports. -/
theorem C7_no_writes_after_stop (s : RpmControlState)
    (inputs : List (Option SensorData × ℚ)) :
    (runTicks (stopRPMControl s).1 inputs).2 = [] := by
  rw [runTicks_inactive inputs (stopRPMControl s).1 rfl]

/-- C9: the claim asserts that after the bound sensor is disabled every tick
leaves `current_pwm` unchanged.  In fact `calculateCurrentRPM` returns 0 for a
disabled sensor, so the tick computes `error = target_rpm`, runs the PID and
recomputes the output: from the state started at 30 RPM (`current_pwm = 8.5`)
a tick with the sensor disabled writes 76, not 8.5. -/
theorem C9_counterexample :
    rpmStateAfterStart30.active = true ∧ sdDisabled.enabled = false ∧
    rpmStateAfterStart30.currentPWM = 17/2 ∧
    (updateRPMController (some sdDisabled) 1100 rpmStateAfterStart30).1.currentPWM = 76 ∧
    (updateRPMController (some sdDisabled) 1100 rpmStateAfterStart30).2 = some 76 ∧
    (76 : ℚ) ≠ 17/2 := by
  refine ⟨?_, rfl, ?_, ?_, ?_, by norm_num⟩ <;>
    norm_num [abs_lt, updateRPMController, calculateCurrentRPM, rpmStateAfterStart30,
      startRPMControl, initialRpmState, sdEnabled, sdDisabled, jsRound10, jsRound, jsOrDefault,
      gainsLow, gainsHigh]

/-- C9 (amended): if the bound sensor is missing or disabled while the
controller is active with `target_rpm ≥ 1`, `calculateCurrentRPM` returns 0
leaving the state untouched, so every subsequent tick computes
`error = target_rpm`, runs the PID branch and writes the freshly recomputed
`current_pwm` to the control pin — the controller keeps actuating (it does not
hold the previous `current_pwm`) until an operator command intervenes.
(For `0 < target_rpm < 1` every tick falls in the deadband and the previous
`current_pwm` is indeed held.) -/
theorem C9_disabled_sensor_tick (sensor : Option SensorData) (now : ℚ) (s : RpmControlState)
    (hact : s.active = true) (hdis : ∀ sd ∈ sensor, sd.enabled = false)
    (ht : 1 ≤ s.targetRPM) :
    calculateCurrentRPM sensor now s = (0, s) ∧
    (updateRPMController sensor now s).2
        = some ((updateRPMController sensor now s).1.currentPWM) := by
  have hc := calculateCurrentRPM_disabled sensor now s hdis
  have hact' : ¬ (s.active = false) := by simp [hact]
  have hdb' : ¬ (|(calculateCurrentRPM sensor now s).2.targetRPM
      - (calculateCurrentRPM sensor now s).1| < 1) := by
    rw [hc]
    simp only [Prod.fst, Prod.snd, sub_zero]
    rw [abs_of_nonneg (by linarith)]
    linarith
  refine ⟨hc, ?_⟩
  simp only [updateRPMController, if_neg hact', if_neg hdb']

/-- C9 witness: controller at 30 RPM with the bound sensor disabled. -/
theorem C9_disabled_sensor_tick_witness :
    rpmStateAfterStart30.active = true ∧
    (calculateCurrentRPM (some sdDisabled) 1100 rpmStateAfterStart30)
        = (0, rpmStateAfterStart30) ∧
    (updateRPMController (some sdDisabled) 1100 rpmStateAfterStart30).2
        = some ((updateRPMController (some sdDisabled) 1100 rpmStateAfterStart30).1.currentPWM)
    := by
  have hact : rpmStateAfterStart30.active = true := by
    norm_num [rpmStateAfterStart30, startRPMControl, initialRpmState, sdEnabled]
  have := C9_disabled_sensor_tick (some sdDisabled) 1100 rpmStateAfterStart30 hact
    (by intro sd hsd; simp only [Option.mem_def, Option.some.injEq] at hsd; rw [← hsd]; rfl)
    (by norm_num [rpmStateAfterStart30, startRPMControl, initialRpmState, sdEnabled])
  exact ⟨hact, this.1, this.2⟩

/-- C10: the claim asserts that after a start with `target_rpm > 1673.33` the
stored `current_pwm` is non-integer and that the first non-deadband tick
clamps it (into `[0, 255]`).  Starting at 1680 RPM stores
`current_pwm = 4 + 252 = 256`: an integer, and greater than 255; the following
non-deadband tick (sensor reads 0, error 1680 > 0) produces 256 again, because
the lower clamp at `kick = 256` is applied after the upper `min` with 255. -/
theorem C10_counterexample :
    (startRPMControl 1680 none none (some sdEnabled) 1000 initialRpmState).1
        = RouteResult.success ∧
    (5020/3 : ℚ) < 1680 ∧
    rpmStateAfterStart1680.currentPWM = 256 ∧
    (∃ n : ℤ, rpmStateAfterStart1680.currentPWM = (n : ℚ)) ∧
    (255 : ℚ) < rpmStateAfterStart1680.currentPWM ∧
    (1 : ℚ) ≤ |rpmStateAfterStart1680.targetRPM
        - (calculateCurrentRPM (some sdEnabled) 1100 rpmStateAfterStart1680).1| ∧
    (updateRPMController (some sdEnabled) 1100 rpmStateAfterStart1680).1.currentPWM = 256 ∧
    (255 : ℚ) < (updateRPMController (some sdEnabled) 1100 rpmStateAfterStart1680).1.currentPWM
    := by
  have hpwm : rpmStateAfterStart1680.currentPWM = 256 := by
    norm_num [rpmStateAfterStart1680, startRPMControl, initialRpmState, sdEnabled]
  have htick : (updateRPMController (some sdEnabled) 1100 rpmStateAfterStart1680).1.currentPWM
      = 256 := by
    norm_num [abs_lt, updateRPMController, calculateCurrentRPM, rpmStateAfterStart1680,
      startRPMControl, initialRpmState, sdEnabled, jsRound10, jsRound, jsOrDefault,
      gainsLow, gainsHigh]
  refine ⟨?_, by norm_num, hpwm, ⟨256, by rw [hpwm]; norm_num⟩, by rw [hpwm]; norm_num, ?_,
    htick, by rw [htick]; norm_num⟩
  · norm_num [startRPMControl, initialRpmState, sdEnabled]
  · norm_num [calculateCurrentRPM, rpmStateAfterStart1680, startRPMControl, initialRpmState,
      sdEnabled, jsRound10, jsRound, jsOrDefault]

theorem max_min255_eq (k b : ℚ) (h : 255 < k) : max k (min 255 b) = k :=
  max_eq_left ((min_le_left _ _).trans h.le)

/-- When the feed-forward kick exceeds 255, a tick of an active controller
that passes the deadband with `error > 0` stores exactly `round(kick)`: the
kick bump forces the pre-clamp output to at least `kick`, the `min` with 255
then yields 255, and the lower clamp at `kick` (applied afterwards) overrides
it.  `round(kick)` is at least 255 and exceeds 255 iff `kick ≥ 255.5`. -/
theorem tick_stores_round_kick (sensor : Option SensorData) (now : ℚ) (s : RpmControlState)
    (hact : s.active = true)
    (hkick : 255 < 4 + (15/100) * s.targetRPM)
    (hdb : 1 ≤ |s.targetRPM - (calculateCurrentRPM sensor now s).1|)
    (herr : 0 < s.targetRPM - (calculateCurrentRPM sensor now s).1) :
    (updateRPMController sensor now s).1.currentPWM
        = (jsRound (4 + (15/100) * s.targetRPM) : ℚ) ∧
    (255 : ℚ) ≤ (updateRPMController sensor now s).1.currentPWM ∧
    (511/2 ≤ 4 + (15/100) * s.targetRPM →
      (255 : ℚ) < (updateRPMController sensor now s).1.currentPWM) := by
  have htgt := (calculateCurrentRPM_preserves sensor now s).2.1
  have hact' : ¬ (s.active = false) := by simp [hact]
  have hdb' : ¬ (|(calculateCurrentRPM sensor now s).2.targetRPM
      - (calculateCurrentRPM sensor now s).1| < 1) := by
    rw [htgt]; exact not_lt.mpr hdb
  simp only [updateRPMController, if_neg hact', if_neg hdb']
  rw [htgt]
  rw [if_pos herr]
  rw [max_min255_eq _ _ hkick]
  have h255 : (255 : ℤ) ≤ jsRound (4 + (15/100) * s.targetRPM) := by
    unfold jsRound
    refine Int.le_floor.mpr ?_
    push_cast
    linarith
  refine ⟨by trivial, by exact_mod_cast h255, fun hk2 => ?_⟩
  have h256 : (256 : ℤ) ≤ jsRound (4 + (15/100) * s.targetRPM) := by
    unfold jsRound
    refine Int.le_floor.mpr ?_
    push_cast
    linarith
  have h256q : (256 : ℚ) ≤ (jsRound (4 + (15/100) * s.targetRPM) : ℚ) := by
    exact_mod_cast h256
  linarith

/-- C10 (amended): `/start` accepts any `target_rpm > 0` with an enabled
sensor — no upper bound — and stores
`current_pwm = base_kick + 0.15 · target_rpm` without rounding or clamping;
whenever `target_rpm > 5020/3 ≈ 1673.33` the stored value exceeds 255 (it is
non-integer exactly when `0.15 · target_rpm` is non-integer).  A subsequent
non-deadband tick with `error > 0` does not clamp the output into `[0, 255]`:
it stores `round(kick)` — an integer that is at least 255, and strictly above
255 whenever `target_rpm ≥ 5030/3 ≈ 1676.67` (`kick ≥ 255.5`) — because the
lower clamp at `kick` is applied after the `min` with 255. -/
theorem C10_start_stores_unclamped (t : ℚ) (cp sn : Option ℚ) (sd : SensorData)
    (now : ℚ) (s : RpmControlState) (ht : 0 < t) (hsd : sd.enabled = true) :
    (startRPMControl t cp sn (some sd) now s).1 = RouteResult.success ∧
    (startRPMControl t cp sn (some sd) now s).2.currentPWM = 4 + (15/100) * t ∧
    (5020/3 < t → 255 < (startRPMControl t cp sn (some sd) now s).2.currentPWM) ∧
    (∀ (sensor2 : Option SensorData) (now2 : ℚ),
      5020/3 < t →
      1 ≤ |t - (calculateCurrentRPM sensor2 now2
              (startRPMControl t cp sn (some sd) now s).2).1| →
      0 < t - (calculateCurrentRPM sensor2 now2
              (startRPMControl t cp sn (some sd) now s).2).1 →
      (updateRPMController sensor2 now2
            (startRPMControl t cp sn (some sd) now s).2).1.currentPWM
          = (jsRound (4 + (15/100) * t) : ℚ) ∧
      (255 : ℚ) ≤ (updateRPMController sensor2 now2
            (startRPMControl t cp sn (some sd) now s).2).1.currentPWM ∧
      (5030/3 ≤ t →
        (255 : ℚ) < (updateRPMController sensor2 now2
              (startRPMControl t cp sn (some sd) now s).2).1.currentPWM)) := by
  have hnot : ¬ (t ≤ 0) := not_le.mpr ht
  have hsd' : ¬ (sd.enabled = false) := by simp [hsd]
  have hs1 : (startRPMControl t cp sn (some sd) now s).2.active = true := by
    simp [startRPMControl, if_neg hnot, if_neg hsd']
  have hs2 : (startRPMControl t cp sn (some sd) now s).2.targetRPM = t := by
    simp [startRPMControl, if_neg hnot, if_neg hsd']
  have hpwm : (startRPMControl t cp sn (some sd) now s).2.currentPWM
      = 4 + (15/100) * t := by
    simp [startRPMControl, if_neg hnot, if_neg hsd']
  refine ⟨?_, hpwm, fun h => ?_, fun sensor2 now2 htt hdb2 herr2 => ?_⟩
  · simp [startRPMControl, if_neg hnot, if_neg hsd']
  · rw [hpwm]; linarith
  · have hk : 255 < 4 + (15/100)
        * (startRPMControl t cp sn (some sd) now s).2.targetRPM := by
      rw [hs2]; linarith
    have h2 := tick_stores_round_kick sensor2 now2 (startRPMControl t cp sn (some sd) now s).2
      hs1 hk (by rw [hs2]; exact hdb2) (by rw [hs2]; exact herr2)
    rw [hs2] at h2
    exact ⟨h2.1, h2.2.1, fun h3 => h2.2.2 (by linarith)⟩

/-- C10 witness: start at 1700 RPM stores `current_pwm = 259 > 255`, and a
following non-deadband tick (sensor reads 0, error 1700 > 0) stores
`round(kick) = 259`, still above 255. -/
theorem C10_start_stores_unclamped_witness :
    (0 : ℚ) < 1700 ∧ sdEnabled.enabled = true ∧
    ((startRPMControl 1700 none none (some sdEnabled) 1000 initialRpmState).1
        = RouteResult.success ∧
      (startRPMControl 1700 none none (some sdEnabled) 1000 initialRpmState).2.currentPWM
        = 4 + (15/100) * 1700 ∧
      (255 : ℚ) < (startRPMControl 1700 none none
          (some sdEnabled) 1000 initialRpmState).2.currentPWM ∧
      ((updateRPMController (some sdEnabled) 1100
            (startRPMControl 1700 none none (some sdEnabled) 1000
              initialRpmState).2).1.currentPWM
          = (jsRound (4 + (15/100) * 1700) : ℚ) ∧
        (255 : ℚ) ≤ (updateRPMController (some sdEnabled) 1100
            (startRPMControl 1700 none none (some sdEnabled) 1000
              initialRpmState).2).1.currentPWM ∧
        ((5030/3 : ℚ) ≤ 1700 →
          (255 : ℚ) < (updateRPMController (some sdEnabled) 1100
              (startRPMControl 1700 none none (some sdEnabled) 1000
                initialRpmState).2).1.currentPWM))) := by
  have h := C10_start_stores_unclamped 1700 none none sdEnabled 1000 initialRpmState
    (by norm_num) rfl
  refine ⟨by norm_num, rfl, h.1, h.2.1, h.2.2.1 (by norm_num),
    h.2.2.2 (some sdEnabled) 1100 (by norm_num) ?_ ?_⟩ <;>
    norm_num [calculateCurrentRPM, startRPMControl, initialRpmState, sdEnabled, jsRound10,
      jsRound, jsOrDefault]

/-- C8: the claim asserts that `pwm.stop` on a valid pin without a Registry
entry fails with a PreconditionError.  The route has no such error path: with
pin 5 and an empty registry it responds success and leaves the registry
unchanged. -/
theorem C8_counterexample :
    (0 : ℤ) ≤ 5 ∧ (5 : ℤ) ≤ 27 ∧ regHas 5 ([] : PwmRegistry) = false ∧
    (pwmStopRoute 5 ([] : PwmRegistry)).1 = PwmStopResult.success ∧
    PwmStopResult.success ≠ PwmStopResult.invalidPin ∧
    (pwmStopRoute 5 ([] : PwmRegistry)).2 = ([] : PwmRegistry) := by
  refine ⟨by norm_num, by norm_num, rfl, ?_, by simp, ?_⟩ <;>
    simp [pwmStopRoute, regHas]

/-- C8 (amended): for every valid pin (0–27) with no `activePins` entry, the
PWM `/stop` route succeeds ("PWM stopped successfully") and leaves the
registry unchanged; no PreconditionError is surfaced. -/
theorem C8_stop_unknown_pin (pin : ℤ) (reg : PwmRegistry)
    (h0 : 0 ≤ pin) (h27 : pin ≤ 27) (hmem : regHas pin reg = false) :
    pwmStopRoute pin reg = (PwmStopResult.success, reg) := by
  have h1 : ¬ (pin < 0 ∨ 27 < pin) := by
    push_neg
    exact ⟨h0, h27⟩
  simp [pwmStopRoute, h1, hmem]

/-- C8 witness: pin 5 against the empty registry. -/
theorem C8_stop_unknown_pin_witness :
    regHas 5 ([] : PwmRegistry) = false ∧
    pwmStopRoute 5 ([] : PwmRegistry) = (PwmStopResult.success, ([] : PwmRegistry)) :=
  ⟨rfl, C8_stop_unknown_pin 5 ([] : PwmRegistry) (by norm_num) (by norm_num) rfl⟩
